import Mathlib

/-!
Verification development for the THE_TURING_TRIO_Hack-O-Verse repository.

The repository is a set of FastAPI/Flask services that map emotion labels to
risk buckets through hand-written thresholds and static tables.  This file
gives a shallow embedding of the pure decision logic of those services:

* `AudioEmotionApi` — `src/Fresh Start/audio_emotion_api.py`
* `BackendAudio`    — `src/backend/audio_analyzer.py`
* `Processor`       — `src/processor.py`
* `TextAnalyzer`    — `src/text-based-analyzer/main.py`
* `MainFacial`      — `src/main_facial.py`

Python floats are modelled by `ℚ`, Python dicts by association lists, and
fallible external decoding by `Option`.  `round(x, n)` is modelled by
`roundTo`, and Python's substring test `a in b` by `strHas b a`.
-/

/-- Lowercase a string character by character, as Python's `str.lower` does
on ASCII identifiers. -/
def lowerStr (s : String) : String := ⟨s.data.map Char.toLower⟩

/-- `listHas l sub` is true when `sub` occurs as a contiguous sublist of `l`. -/
def listHas (l sub : List Char) : Bool :=
  match l with
  | [] => sub.isEmpty
  | _ :: t => sub.isPrefixOf l || listHas t sub

/-- Python's substring containment `sub in s`. -/
def strHas (s sub : String) : Bool := listHas s.data sub.data

/-- Python's `str.split(sep)` for a one-character separator, on the
character list of the string. -/
def splitOnChar (sep : Char) : List Char → List (List Char)
  | [] => [[]]
  | c :: rest =>
    let r := splitOnChar sep rest
    if c = sep then [] :: r
    else
      match r with
      | [] => [[c]]
      | h :: t => (c :: h) :: t

/-- Python's `round(q, n)` (to `n` decimal places), modelled with
round-half-up on rationals. -/
def roundTo (q : ℚ) (n : ℕ) : ℚ := (round (q * 10 ^ n) : ℤ) / 10 ^ n

theorem round_rat_mono {x y : ℚ} (h : x ≤ y) : round x ≤ round y := by
  rw [round_eq, round_eq]
  exact Int.floor_mono (by linarith)

theorem roundTo_mono {x y : ℚ} (n : ℕ) (h : x ≤ y) : roundTo x n ≤ roundTo y n := by
  unfold roundTo
  have h1 : x * 10 ^ n ≤ y * 10 ^ n :=
    mul_le_mul_of_nonneg_right h (by positivity)
  have h2 : round (x * 10 ^ n) ≤ round (y * 10 ^ n) := round_rat_mono h1
  have h3 : ((round (x * 10 ^ n) : ℤ) : ℚ) ≤ ((round (y * 10 ^ n) : ℤ) : ℚ) :=
    Int.cast_le.mpr h2
  exact div_le_div_of_nonneg_right h3 (by positivity) |>.trans_eq rfl

namespace AudioEmotionApi

/-- `ALLOWED_EXTENSIONS` from `audio_emotion_api.py`. -/
def ALLOWED_EXTENSIONS : List String := ["wav", "mp3", "m4a", "flac", "ogg"]

/-- `MAX_FILE_SIZE_MB` (default 50). -/
def MAX_FILE_SIZE_MB : ℕ := 50

/-- `MAX_FILE_SIZE_BYTES = MAX_FILE_SIZE_MB * 1024 * 1024`. -/
def MAX_FILE_SIZE_BYTES : ℕ := MAX_FILE_SIZE_MB * 1024 * 1024

/-- `MAX_DURATION` (default 30 seconds). -/
def MAX_DURATION : ℚ := 30

/-- The base-risk table of `AudioEmotionAnalyzer.map_to_risk_level`
(the `base_risk` assignments over the lowercased emotion). -/
def base_risk (emotion : String) : ℚ :=
  let emotionLower := lowerStr emotion
  if emotionLower ∈ (["anger", "disgust", "fear", "sadness"] : List String) then 70
  else if emotionLower ∈ (["frustration", "anxiety", "stress"] : List String) then 50
  else if emotionLower ∈ (["neutral", "surprise"] : List String) then 30
  else if emotionLower ∈ (["happy", "joy", "calm", "excited"] : List String) then 10
  else 40

/-- The clamped confidence adjustment of `map_to_risk_level`:
`adjusted_risk = min(100, max(0, base_risk + (1 - confidence) * 20))`. -/
def adjusted_risk_raw (emotion : String) (confidence : ℚ) : ℚ :=
  min 100 (max 0 (base_risk emotion + (1 - confidence) * 20))

/-- The final threshold bucketing of `map_to_risk_level` on the (unrounded)
adjusted risk. -/
def risk_bucket (adjustedRisk : ℚ) : String :=
  if 80 ≤ adjustedRisk then "CRITICAL"
  else if 60 ≤ adjustedRisk then "HIGH"
  else if 40 ≤ adjustedRisk then "MEDIUM"
  else "LOW"

/-- `AudioEmotionAnalyzer.map_to_risk_level`: returns the pair
`(risk_level, float(round(adjusted_risk, 1)))`.  The `risk_level` set in the
emotion branches is unconditionally overwritten by the threshold chain, so
only the final bucketing is kept. -/
def map_to_risk_level (emotion : String) (confidence : ℚ) : String × ℚ :=
  let adjustedRisk := adjusted_risk_raw emotion confidence
  (risk_bucket adjustedRisk, roundTo adjustedRisk 1)

/-- Claim C1's base table, following the claim's words: 70 for lowercased
emotion in {anger, disgust, fear, sadness}, 50 for {frustration, anxiety,
stress}, 30 for {neutral, surprise}, 10 for {happy, joy, calm, excited},
and 40 for any other string. -/
def specBaseC1 (emotion : String) : ℚ :=
  if lowerStr emotion ∈ (["anger", "disgust", "fear", "sadness"] : List String) then 70
  else if lowerStr emotion ∈ (["frustration", "anxiety", "stress"] : List String) then 50
  else if lowerStr emotion ∈ (["neutral", "surprise"] : List String) then 30
  else if lowerStr emotion ∈ (["happy", "joy", "calm", "excited"] : List String) then 10
  else 40

/-- Claim C1's clamped adjustment before rounding:
`clamp(base + (1 - confidence) * 20, 0, 100)`. -/
def specRawC1 (emotion : String) (confidence : ℚ) : ℚ :=
  min 100 (max 0 (specBaseC1 emotion + (1 - confidence) * 20))

/-- Claim C1's `adjusted_risk`: the clamped adjustment rounded to one
decimal. -/
def specAdjustedRiskC1 (emotion : String) (confidence : ℚ) : ℚ :=
  roundTo (specRawC1 emotion confidence) 1

/-- Claim C1 as stated: the returned score is the rounded clamp, and the
returned level is bucketed from that (rounded) `adjusted_risk`. -/
def C1Claim (e : String) (c : ℚ) : Prop :=
  (map_to_risk_level e c).2 = specAdjustedRiskC1 e c ∧
  ((map_to_risk_level e c).1 = "CRITICAL" ↔ 80 ≤ specAdjustedRiskC1 e c) ∧
  ((map_to_risk_level e c).1 = "HIGH" ↔
    60 ≤ specAdjustedRiskC1 e c ∧ specAdjustedRiskC1 e c < 80) ∧
  ((map_to_risk_level e c).1 = "MEDIUM" ↔
    40 ≤ specAdjustedRiskC1 e c ∧ specAdjustedRiskC1 e c < 60) ∧
  ((map_to_risk_level e c).1 = "LOW" ↔ specAdjustedRiskC1 e c < 40)

theorem risk_bucket_cases (a : ℚ) :
    (risk_bucket a = "CRITICAL" ↔ 80 ≤ a) ∧
    (risk_bucket a = "HIGH" ↔ 60 ≤ a ∧ a < 80) ∧
    (risk_bucket a = "MEDIUM" ↔ 40 ≤ a ∧ a < 60) ∧
    (risk_bucket a = "LOW" ↔ a < 40) := by
  unfold risk_bucket
  split_ifs with h1 h2 h3
  · refine ⟨⟨fun _ => h1, fun _ => rfl⟩, ?_, ?_, ?_⟩ <;>
      exact ⟨fun h => absurd h (by decide),
             fun h => by exfalso; first | linarith [h.2] | linarith [h]⟩
  · refine ⟨⟨fun h => absurd h (by decide), fun h => absurd h h1⟩,
            ⟨fun _ => ⟨h2, not_le.mp h1⟩, fun _ => rfl⟩, ?_, ?_⟩ <;>
      exact ⟨fun h => absurd h (by decide),
             fun h => by exfalso; first | linarith [h.2] | linarith [h]⟩
  · refine ⟨⟨fun h => absurd h (by decide), fun h => absurd h h1⟩,
            ⟨fun h => absurd h (by decide), fun h => absurd h.1 h2⟩,
            ⟨fun _ => ⟨h3, not_le.mp h2⟩, fun _ => rfl⟩,
            ⟨fun h => absurd h (by decide), fun h => by exfalso; linarith [not_le.mp h2]⟩⟩
  · exact ⟨⟨fun h => absurd h (by decide), fun h => absurd h h1⟩,
           ⟨fun h => absurd h (by decide), fun h => absurd h.1 h2⟩,
           ⟨fun h => absurd h (by decide), fun h => absurd h.1 h3⟩,
           ⟨fun _ => not_le.mp h3, fun _ => rfl⟩⟩

theorem map_to_risk_level_at_anger_502 :
    map_to_risk_level "anger" (251/500) = ("HIGH", 80) := by
  have hb : base_risk "anger" = 70 := rfl
  have ha : adjusted_risk_raw "anger" (251/500) = 1999/25 := by
    rw [adjusted_risk_raw, hb]; norm_num
  rw [map_to_risk_level, ha]
  have hbk : risk_bucket (1999/25) = "HIGH" := by
    rw [risk_bucket, if_neg (by norm_num), if_pos (by norm_num)]
  have hrt : roundTo (1999/25) 1 = 80 := by
    unfold roundTo; norm_num [round_eq]
  rw [hbk, hrt]

/-- **C1 counterexample.** At emotion `"anger"` and confidence `0.502` the
unrounded adjusted risk is `79.96`, so the code returns `("HIGH", 80.0)`;
but the claim derives the level from the returned (rounded) `adjusted_risk
= 80.0`, which would demand `"CRITICAL"`.  So the claim as stated fails. -/
theorem C1_counterexample : ¬ C1Claim "anger" (251/500) := by
  intro h
  have hspec : specAdjustedRiskC1 "anger" (251/500) = 80 := by
    have hb : specBaseC1 "anger" = 70 := rfl
    have hr : specRawC1 "anger" (251/500) = 1999/25 := by
      rw [specRawC1, hb]; norm_num
    rw [specAdjustedRiskC1, hr]
    unfold roundTo; norm_num [round_eq]
  have hh := (h.2.2.1).mp
  rw [map_to_risk_level_at_anger_502, hspec] at hh
  have := (hh rfl).2
  linarith

/-- **C1 (amended).** `map_to_risk_level` returns the pair
`(risk_level, adjusted_risk)` where `adjusted_risk` is the claim's clamped
base-plus-confidence adjustment rounded to one decimal; the risk level,
however, is bucketed from the clamped value *before* rounding: `"CRITICAL"`
iff it is `≥ 80`, `"HIGH"` iff in `[60, 80)`, `"MEDIUM"` iff in `[40, 60)`,
and `"LOW"` otherwise. -/
theorem C1_map_to_risk_level_amended (e : String) (c : ℚ) :
    (map_to_risk_level e c).2 = roundTo (specRawC1 e c) 1 ∧
    ((map_to_risk_level e c).1 = "CRITICAL" ↔ 80 ≤ specRawC1 e c) ∧
    ((map_to_risk_level e c).1 = "HIGH" ↔
      60 ≤ specRawC1 e c ∧ specRawC1 e c < 80) ∧
    ((map_to_risk_level e c).1 = "MEDIUM" ↔
      40 ≤ specRawC1 e c ∧ specRawC1 e c < 60) ∧
    ((map_to_risk_level e c).1 = "LOW" ↔ specRawC1 e c < 40) := by
  have hr : specRawC1 e c = adjusted_risk_raw e c := rfl
  rw [hr]
  exact ⟨rfl, risk_bucket_cases (adjusted_risk_raw e c)⟩

/-- Claim C10's severity rank for the ordering
`LOW < MEDIUM < HIGH < CRITICAL`. -/
def specSeverityC10 (level : String) : ℕ :=
  if level = "LOW" then 0
  else if level = "MEDIUM" then 1
  else if level = "HIGH" then 2
  else if level = "CRITICAL" then 3
  else 0

theorem adjusted_risk_raw_antitone (e : String) {c1 c2 : ℚ} (h : c1 ≤ c2) :
    adjusted_risk_raw e c2 ≤ adjusted_risk_raw e c1 := by
  unfold adjusted_risk_raw
  have hb : base_risk e + (1 - c2) * 20 ≤ base_risk e + (1 - c1) * 20 := by linarith
  exact min_le_min (le_refl 100) (max_le_max (le_refl 0) hb)

theorem risk_bucket_rank_mono {x y : ℚ} (h : x ≤ y) :
    specSeverityC10 (risk_bucket x) ≤ specSeverityC10 (risk_bucket y) := by
  unfold risk_bucket
  split_ifs <;> first | decide | (exfalso; linarith)

/-- **C10.** For a fixed emotion, `map_to_risk_level` is antitone in the
confidence: for `c1 ≤ c2` in `[0, 1]`, the risk score returned at `c2` is
at most the one returned at `c1`, and the level at `c2` is no more severe
than the one at `c1` under `LOW < MEDIUM < HIGH < CRITICAL`. -/
theorem C10_map_to_risk_level_antitone (e : String) {c1 c2 : ℚ}
    (h0 : 0 ≤ c1) (h12 : c1 ≤ c2) (h1 : c2 ≤ 1) :
    (map_to_risk_level e c2).2 ≤ (map_to_risk_level e c1).2 ∧
    specSeverityC10 ((map_to_risk_level e c2).1) ≤
      specSeverityC10 ((map_to_risk_level e c1).1) := by
  have hraw : adjusted_risk_raw e c2 ≤ adjusted_risk_raw e c1 :=
    adjusted_risk_raw_antitone e h12
  exact ⟨roundTo_mono 1 hraw, risk_bucket_rank_mono hraw⟩

/-- An uploaded file as `validate_file` sees it: a possibly missing
filename plus the byte size obtained from seeking the stream. -/
structure UploadFile where
  filename : Option String
  size : ℕ

/-- The result dict of `validate_file`. -/
structure FileValidation where
  valid : Bool
  error : Option String
  extension : Option String
  fsize : ℕ

/-- The extension extraction of `validate_file`:
`file.filename.split('.')[-1].lower() if '.' in file.filename else ""`. -/
def extension_of (name : String) : String :=
  if name.data.contains '.' then lowerStr ⟨(splitOnChar '.' name.data).getLastD []⟩
  else ""

/-- `validate_file` from `audio_emotion_api.py`.  Python's `if not
file.filename` treats the empty filename like a missing one. -/
def validate_file (file : UploadFile) : FileValidation :=
  match file.filename with
  | none => ⟨false, some "No filename provided", none, 0⟩
  | some name =>
    if name = "" then ⟨false, some "No filename provided", none, 0⟩
    else
      let ext := extension_of name
      if ext ∉ ALLOWED_EXTENSIONS then
        ⟨false, some "File type not allowed. Allowed: wav, mp3, m4a, flac, ogg", none, 0⟩
      else if MAX_FILE_SIZE_BYTES < file.size then
        ⟨false, some "File too large. Max size: 50MB", none, 0⟩
      else ⟨true, none, some ext, file.size⟩

/-- Outcome of the `POST /analyze` endpoint: either an `HTTPException`
(status code and detail) or a successful analysis body. -/
inductive EndpointResult where
  | httpError (status : ℕ) (detail : String)
  | ok (body : String)
deriving DecidableEq

/-- The front of the `analyze_audio` endpoint: the 503 analyzer-readiness
check, then `validate_file` with a 400 on failure, and only then the model
call (abstracted as `runModel`). -/
def analyze_audio (analyzerReady : Bool) (file : UploadFile)
    (runModel : UploadFile → EndpointResult) : EndpointResult :=
  if analyzerReady = false then
    EndpointResult.httpError 503 "Audio analyzer is not ready. Please try again later."
  else
    let validation := validate_file file
    if validation.valid = false then
      EndpointResult.httpError 400 (validation.error.getD "")
    else runModel file

/-- Claim C4's extension, following the claim's words: the text after the
last dot, lowercased; a name with no dot has no extension, modelled as
`""` (which is not an allowed extension). -/
def specExtC4 (name : String) : String :=
  if name.data.contains '.' then lowerStr ⟨(splitOnChar '.' name.data).getLastD []⟩
  else ""

/-- Claim C4's invalidity condition: missing filename, disallowed
extension, or size over `50 * 1024 * 1024` bytes. -/
def specInvalidC4 (file : UploadFile) : Prop :=
  file.filename = none ∨
  (∃ name, file.filename = some name ∧
     specExtC4 name ∉ (["wav", "mp3", "m4a", "flac", "ogg"] : List String)) ∨
  50 * 1024 * 1024 < file.size

theorem validate_file_valid_iff (file : UploadFile) :
    (validate_file file).valid = true ↔
      ∃ name, file.filename = some name ∧ name ≠ "" ∧
        extension_of name ∈ ALLOWED_EXTENSIONS ∧ file.size ≤ MAX_FILE_SIZE_BYTES := by
  obtain ⟨fn, sz⟩ := file
  cases fn with
  | none => simp [validate_file]
  | some name =>
    simp only [validate_file]
    by_cases h1 : name = ""
    · simp [h1]
    · by_cases h2 : extension_of name ∈ ALLOWED_EXTENSIONS
      · by_cases h3 : MAX_FILE_SIZE_BYTES < sz
        · simp [h1, h2, h3]
        · simp [h1, h2, h3]; omega
      · simp [h1, h2]

/-- **C4.** `validate_file` marks an upload invalid exactly when the
filename is missing, the lowercased last-dot extension is not one of
`wav, mp3, m4a, flac, ogg`, or the size exceeds 50 MB; and whenever
validation fails, the ready `POST /analyze` endpoint answers HTTP 400 with
the validation error as detail, whatever the model stage would do. -/
theorem C4_validate_file_and_endpoint (file : UploadFile)
    (runModel : UploadFile → EndpointResult) :
    ((validate_file file).valid = false ↔ specInvalidC4 file) ∧
    ((validate_file file).valid = false →
      analyze_audio true file runModel =
        EndpointResult.httpError 400 ((validate_file file).error.getD "")) := by
  constructor
  · rw [show ((validate_file file).valid = false) ↔ ¬ ((validate_file file).valid = true) by
      simp [Bool.not_eq_true]]
    rw [validate_file_valid_iff]
    unfold specInvalidC4
    obtain ⟨fn, sz⟩ := file
    cases fn with
    | none => simp
    | some name =>
      simp only [Option.some.injEq]
      constructor
      · intro hne
        by_cases h2 : specExtC4 name ∈ (["wav", "mp3", "m4a", "flac", "ogg"] : List String)
        · by_cases h3 : 50 * 1024 * 1024 < sz
          · exact Or.inr (Or.inr h3)
          · exfalso
            apply hne
            refine ⟨name, rfl, ?_, h2,
              by have hm : MAX_FILE_SIZE_BYTES = 52428800 := rfl; omega⟩
            intro hname
            subst hname
            exact absurd h2 (by decide)
        · exact Or.inr (Or.inl ⟨name, rfl, h2⟩)
      · rintro (h | h | h)
        · exact absurd h (by simp)
        · obtain ⟨n, hn, hna⟩ := h
          rintro ⟨n2, hn2, -, hmem, -⟩
          cases hn
          cases hn2
          exact hna hmem
        · rintro ⟨n2, hn2, -, -, hsz⟩
          have hm : MAX_FILE_SIZE_BYTES = 52428800 := rfl
          omega
  · intro hv
    simp [analyze_audio, hv]

/-- Concrete instance of C4 at a file with a disallowed extension. -/
theorem C4_witness :
    (validate_file ⟨some "voice.txt", 10⟩).valid = false ∧
    (validate_file ⟨some "voice.txt", 10⟩).error =
      some "File type not allowed. Allowed: wav, mp3, m4a, flac, ogg" ∧
    analyze_audio true ⟨some "voice.txt", 10⟩ (fun _ => EndpointResult.ok "done") =
      EndpointResult.httpError 400
        ((validate_file ⟨some "voice.txt", 10⟩).error.getD "") :=
  ⟨by decide, by decide,
   (C4_validate_file_and_endpoint ⟨some "voice.txt", 10⟩
      (fun _ => EndpointResult.ok "done")).2 (by decide)⟩

/-- The result dict of `AudioProcessor.validate_audio`. -/
structure AudioValidation where
  valid : Bool
  error : Option String
  duration : ℚ
  sample_rate : ℕ

/-- `AudioProcessor.validate_audio` (textually identical in
`audio_emotion_api.py` and `backend/audio_analyzer.py`).  `decoded` holds
soundfile's `(duration, samplerate)` metadata when the bytes decode, and
`failMsg` is the exception text when they do not. -/
def validate_audio (decoded : Option (ℚ × ℕ)) (failMsg : String) : AudioValidation :=
  match decoded with
  | none => ⟨false, some ("Validation failed: " ++ failMsg), 0, 0⟩
  | some (duration, samplerate) =>
    if duration > MAX_DURATION then
      ⟨false, some "Audio too long. Max: 30s", duration, samplerate⟩
    else if duration < 1 then
      ⟨false, some "Audio too short. Min: 1s", duration, samplerate⟩
    else ⟨true, none, duration, samplerate⟩

theorem listIsPrefixOf_append_self (l r : List Char) : l.isPrefixOf (l ++ r) = true := by
  induction l with
  | nil => simp [List.isPrefixOf]
  | cons a as ih => simp [List.isPrefixOf, ih]

/-- **C5.** On readable metadata, `validate_audio` accepts exactly the
durations in `[1, 30]`; too-long and too-short inputs get the fixed
error strings, and undecodable bytes yield `valid = False` with an error
starting `"Validation failed:"`. -/
theorem C5_validate_audio (decoded : Option (ℚ × ℕ)) (failMsg : String) :
    (∀ d sr, decoded = some (d, sr) →
      ((validate_audio decoded failMsg).valid = true ↔ 1 ≤ d ∧ d ≤ 30) ∧
      (30 < d →
        (validate_audio decoded failMsg).error = some "Audio too long. Max: 30s") ∧
      (d < 1 →
        (validate_audio decoded failMsg).error = some "Audio too short. Min: 1s")) ∧
    (decoded = none →
      (validate_audio decoded failMsg).valid = false ∧
      ∃ msg, (validate_audio decoded failMsg).error = some msg ∧
        ("Validation failed:".data).isPrefixOf msg.data = true) := by
  constructor
  · rintro d sr rfl
    simp only [validate_audio, MAX_DURATION]
    by_cases h1 : d > 30
    · rw [if_pos h1]
      refine ⟨?_, fun _ => rfl, fun h2 => by exfalso; linarith⟩
      constructor
      · intro h; cases h
      · rintro ⟨-, hle⟩; exact absurd h1 (not_lt.mpr hle)
    · rw [if_neg h1]
      by_cases h2 : d < 1
      · rw [if_pos h2]
        refine ⟨?_, fun h => absurd h h1, fun _ => rfl⟩
        constructor
        · intro h; cases h
        · rintro ⟨hge, -⟩; exact absurd h2 (not_lt.mpr hge)
      · rw [if_neg h2]
        exact ⟨⟨fun _ => ⟨not_lt.mp h2, not_lt.mp h1⟩, fun _ => rfl⟩,
               fun h => absurd h h1, fun h => absurd h h2⟩
  · rintro rfl
    refine ⟨rfl, "Validation failed: " ++ failMsg, rfl, ?_⟩
    have hd : ("Validation failed: " ++ failMsg).data
        = "Validation failed:".data ++ (' ' :: failMsg.data) := rfl
    rw [hd]
    exact listIsPrefixOf_append_self _ _

/-- Concrete instances of C5: a 31-second decode and a failed decode. -/
theorem C5_witness :
    (validate_audio (some (31, 16000)) "").error = some "Audio too long. Max: 30s" ∧
    (validate_audio none "boom").valid = false :=
  ⟨((C5_validate_audio (some (31, 16000)) "").1 31 16000 rfl).2.1 (by norm_num),
   ((C5_validate_audio none "boom").2 rfl).1⟩

/-- The `"LOW"` entry of the static recommendation table of
`AudioEmotionAnalyzer.get_recommendations`. -/
def LOW_RECOMMENDATIONS : List String :=
  ["Practice deep breathing for 5 minutes",
   "Take a short walk or stretch break",
   "Listen to calming music",
   "Maintain regular sleep schedule"]

/-- The `"MEDIUM"` entry of the static recommendation table. -/
def MEDIUM_RECOMMENDATIONS : List String :=
  ["Consider talking to a counselor or therapist",
   "Practice grounding techniques (5-4-3-2-1 method)",
   "Join a support group or online community",
   "Learn stress management techniques"]

/-- The `"HIGH"` entry of the static recommendation table. -/
def HIGH_RECOMMENDATIONS : List String :=
  ["Contact a mental health helpline for support",
   "Practice the STOP technique (Stop, Take a breath, Observe, Proceed)",
   "Consult a mental health professional",
   "Develop a safety plan with professional help"]

/-- The `"CRITICAL"` entry of the static recommendation table. -/
def CRITICAL_RECOMMENDATIONS : List String :=
  ["🚨 CALL A CRISIS HELPLINE IMMEDIATELY",
   "🚨 Go to the nearest emergency department",
   "🚨 Do not stay alone - be with someone you trust",
   "🚨 Remove access to harmful means immediately"]

/-- `AudioEmotionAnalyzer.get_recommendations`: a dict lookup on the risk
level with the `"MEDIUM"` list as default; the `emotion` argument is
accepted and ignored. -/
def get_recommendations (risk_level emotion : String) : List String :=
  if risk_level = "LOW" then LOW_RECOMMENDATIONS
  else if risk_level = "MEDIUM" then MEDIUM_RECOMMENDATIONS
  else if risk_level = "HIGH" then HIGH_RECOMMENDATIONS
  else if risk_level = "CRITICAL" then CRITICAL_RECOMMENDATIONS
  else MEDIUM_RECOMMENDATIONS

/-- **C6.** `get_recommendations` returns exactly the fixed four-item list
of the static table for the four known risk levels, the `"MEDIUM"` list for
any other string, and never depends on the emotion argument. -/
theorem C6_get_recommendations (risk_level emotion other : String) :
    get_recommendations risk_level emotion = get_recommendations risk_level other ∧
    (risk_level = "LOW" → get_recommendations risk_level emotion =
      ["Practice deep breathing for 5 minutes",
       "Take a short walk or stretch break",
       "Listen to calming music",
       "Maintain regular sleep schedule"]) ∧
    (risk_level = "MEDIUM" → get_recommendations risk_level emotion =
      ["Consider talking to a counselor or therapist",
       "Practice grounding techniques (5-4-3-2-1 method)",
       "Join a support group or online community",
       "Learn stress management techniques"]) ∧
    (risk_level = "HIGH" → get_recommendations risk_level emotion =
      ["Contact a mental health helpline for support",
       "Practice the STOP technique (Stop, Take a breath, Observe, Proceed)",
       "Consult a mental health professional",
       "Develop a safety plan with professional help"]) ∧
    (risk_level = "CRITICAL" → get_recommendations risk_level emotion =
      ["🚨 CALL A CRISIS HELPLINE IMMEDIATELY",
       "🚨 Go to the nearest emergency department",
       "🚨 Do not stay alone - be with someone you trust",
       "🚨 Remove access to harmful means immediately"]) ∧
    (risk_level ∉ (["LOW", "MEDIUM", "HIGH", "CRITICAL"] : List String) →
      get_recommendations risk_level emotion =
      ["Consider talking to a counselor or therapist",
       "Practice grounding techniques (5-4-3-2-1 method)",
       "Join a support group or online community",
       "Learn stress management techniques"]) ∧
    (get_recommendations risk_level emotion).length = 4 := by
  refine ⟨rfl, ?_, ?_, ?_, ?_, ?_, ?_⟩
  · rintro rfl; rfl
  · rintro rfl; rfl
  · rintro rfl; rfl
  · rintro rfl; rfl
  · intro h
    simp only [List.mem_cons, List.not_mem_nil, or_false, not_or] at h
    obtain ⟨h1, h2, h3, h4⟩ := h
    simp [get_recommendations, h1, h2, h3, h4, MEDIUM_RECOMMENDATIONS]
  · unfold get_recommendations
    split_ifs <;> rfl

/-- Concrete instance of C6 at the unknown level `"ODD"`. -/
theorem C6_witness :
    ("ODD" : String) ∉ (["LOW", "MEDIUM", "HIGH", "CRITICAL"] : List String) ∧
    get_recommendations "ODD" "fear" =
      ["Consider talking to a counselor or therapist",
       "Practice grounding techniques (5-4-3-2-1 method)",
       "Join a support group or online community",
       "Learn stress management techniques"] :=
  ⟨by decide,
   (C6_get_recommendations "ODD" "fear" "calm").2.2.2.2.2.1 (by decide)⟩

/-- Concrete instance of C10 at emotion `"anger"`, `c1 = 0`, `c2 = 1`. -/
theorem C10_witness :
    (0:ℚ) ≤ 0 ∧ (0:ℚ) ≤ 1 ∧ (1:ℚ) ≤ 1 ∧
    ((map_to_risk_level "anger" 1).2 ≤ (map_to_risk_level "anger" 0).2 ∧
     specSeverityC10 ((map_to_risk_level "anger" 1).1) ≤
       specSeverityC10 ((map_to_risk_level "anger" 0).1)) :=
  ⟨le_refl 0, zero_le_one, le_refl 1,
   C10_map_to_risk_level_antitone "anger" (le_refl 0) zero_le_one (le_refl 1)⟩

end AudioEmotionApi

namespace BackendAudio

/-- The `risk_weights` table of `AudioEmotionAnalyzer.calculate_risk_score`
in `backend/audio_analyzer.py`, including the default 30 of
`risk_weights.get(emotion, 30)`. -/
def risk_weight (emotion : String) : ℚ :=
  if emotion = "sad" then 60
  else if emotion = "fearful" then 70
  else if emotion = "angry" then 50
  else if emotion = "disgust" then 40
  else if emotion = "neutral" then 25
  else if emotion = "calm" then 15
  else if emotion = "happy" then 10
  else if emotion = "surprised" then 20
  else 30

/-- The risk-level thresholds of `calculate_risk_score`. -/
def backend_bucket (risk_score : ℚ) : String :=
  if 75 ≤ risk_score then "CRITICAL"
  else if 55 ≤ risk_score then "HIGH"
  else if 35 ≤ risk_score then "MEDIUM"
  else "LOW"

/-- `AudioEmotionAnalyzer.calculate_risk_score`: the emotion-score dict is
modelled as an association list iterated in order; the function returns
`(risk_level, risk_score)`. -/
def calculate_risk_score (emotion_scores : List (String × ℚ)) : String × ℚ :=
  let risk_score := emotion_scores.foldl (fun acc p => acc + risk_weight p.1 * p.2) 0
  (backend_bucket risk_score, risk_score)

/-- Claim C2's weight table, following the claim's words: sad=60,
fearful=70, angry=50, disgust=40, neutral=25, calm=15, happy=10,
surprised=20 and 30 for any other emotion key. -/
def specWeightC2 (emotion : String) : ℚ :=
  if emotion = "sad" then 60
  else if emotion = "fearful" then 70
  else if emotion = "angry" then 50
  else if emotion = "disgust" then 40
  else if emotion = "neutral" then 25
  else if emotion = "calm" then 15
  else if emotion = "happy" then 10
  else if emotion = "surprised" then 20
  else 30

theorem foldl_add_eq_sum (f : String × ℚ → ℚ) (l : List (String × ℚ)) (init : ℚ) :
    l.foldl (fun acc p => acc + f p) init = init + (l.map f).sum := by
  induction l generalizing init with
  | nil => simp
  | cons a t ih => simp [ih]; ring

theorem backend_bucket_cases (a : ℚ) :
    (backend_bucket a = "CRITICAL" ↔ 75 ≤ a) ∧
    (backend_bucket a = "HIGH" ↔ 55 ≤ a ∧ a < 75) ∧
    (backend_bucket a = "MEDIUM" ↔ 35 ≤ a ∧ a < 55) ∧
    (backend_bucket a = "LOW" ↔ a < 35) := by
  unfold backend_bucket
  split_ifs with h1 h2 h3
  · refine ⟨⟨fun _ => h1, fun _ => rfl⟩, ?_, ?_, ?_⟩ <;>
      exact ⟨fun h => absurd h (by decide),
             fun h => by exfalso; first | linarith [h.2] | linarith [h]⟩
  · refine ⟨⟨fun h => absurd h (by decide), fun h => absurd h h1⟩,
            ⟨fun _ => ⟨h2, not_le.mp h1⟩, fun _ => rfl⟩, ?_, ?_⟩ <;>
      exact ⟨fun h => absurd h (by decide),
             fun h => by exfalso; first | linarith [h.2] | linarith [h]⟩
  · refine ⟨⟨fun h => absurd h (by decide), fun h => absurd h h1⟩,
            ⟨fun h => absurd h (by decide), fun h => absurd h.1 h2⟩,
            ⟨fun _ => ⟨h3, not_le.mp h2⟩, fun _ => rfl⟩,
            ⟨fun h => absurd h (by decide), fun h => by exfalso; linarith [not_le.mp h2]⟩⟩
  · exact ⟨⟨fun h => absurd h (by decide), fun h => absurd h h1⟩,
           ⟨fun h => absurd h (by decide), fun h => absurd h.1 h2⟩,
           ⟨fun h => absurd h (by decide), fun h => absurd h.1 h3⟩,
           ⟨fun _ => not_le.mp h3, fun _ => rfl⟩⟩

/-- **C2.** `calculate_risk_score` returns the weighted sum of the emotion
scores under the claim's weight table, and its risk level is `"CRITICAL"`
iff the score is `≥ 75`, `"HIGH"` iff in `[55, 75)`, `"MEDIUM"` iff in
`[35, 55)`, and `"LOW"` otherwise. -/
theorem C2_calculate_risk_score (scores : List (String × ℚ)) :
    (calculate_risk_score scores).2 =
      (scores.map (fun p => specWeightC2 p.1 * p.2)).sum ∧
    ((calculate_risk_score scores).1 = "CRITICAL" ↔
      75 ≤ (calculate_risk_score scores).2) ∧
    ((calculate_risk_score scores).1 = "HIGH" ↔
      55 ≤ (calculate_risk_score scores).2 ∧ (calculate_risk_score scores).2 < 75) ∧
    ((calculate_risk_score scores).1 = "MEDIUM" ↔
      35 ≤ (calculate_risk_score scores).2 ∧ (calculate_risk_score scores).2 < 55) ∧
    ((calculate_risk_score scores).1 = "LOW" ↔
      (calculate_risk_score scores).2 < 35) := by
  have hw : specWeightC2 = risk_weight := rfl
  have hs : (calculate_risk_score scores).2 =
      (scores.map (fun p => risk_weight p.1 * p.2)).sum := by
    show scores.foldl (fun acc p => acc + risk_weight p.1 * p.2) 0 = _
    rw [foldl_add_eq_sum (fun p => risk_weight p.1 * p.2) scores 0, zero_add]
  exact ⟨by rw [hw]; exact hs, backend_bucket_cases _⟩

theorem risk_weight_le_70 (e : String) : risk_weight e ≤ 70 := by
  unfold risk_weight; split_ifs <;> norm_num

theorem weighted_sum_le (l : List (String × ℚ)) (hpos : ∀ p ∈ l, 0 ≤ p.2) :
    (l.map (fun p => risk_weight p.1 * p.2)).sum ≤
      70 * (l.map (fun p => p.2)).sum := by
  induction l with
  | nil => simp
  | cons a t ih =>
    simp only [List.map_cons, List.sum_cons]
    have h1 : risk_weight a.1 * a.2 ≤ 70 * a.2 :=
      mul_le_mul_of_nonneg_right (risk_weight_le_70 a.1)
        (hpos a (List.mem_cons_self a t))
    have h2 := ih (fun p hp => hpos p (List.mem_cons_of_mem a hp))
    linarith

/-- **C9.** When every emotion score is nonnegative and the scores sum to
at most 1 (a normalized distribution), the weighted risk score is at most
70, and the `"CRITICAL"` level — which needs a score of at least 75 — is
unreachable. -/
theorem C9_normalized_scores_below_critical (scores : List (String × ℚ))
    (hpos : ∀ p ∈ scores, 0 ≤ p.2)
    (hsum : (scores.map (fun p => p.2)).sum ≤ 1) :
    (calculate_risk_score scores).2 ≤ 70 ∧
    (calculate_risk_score scores).1 ≠ "CRITICAL" := by
  have hs : (calculate_risk_score scores).2 =
      (scores.map (fun p => risk_weight p.1 * p.2)).sum := by
    show scores.foldl (fun acc p => acc + risk_weight p.1 * p.2) 0 = _
    rw [foldl_add_eq_sum (fun p => risk_weight p.1 * p.2) scores 0, zero_add]
  have hb := weighted_sum_le scores hpos
  have h70 : (calculate_risk_score scores).2 ≤ 70 := by rw [hs]; linarith
  refine ⟨h70, fun hc => ?_⟩
  have h75 := (backend_bucket_cases ((calculate_risk_score scores).2)).1.mp hc
  linarith

/-- Concrete instance of C9 at the singleton distribution `{sad: 0.5}`. -/
theorem C9_witness :
    (∀ p ∈ ([("sad", (1:ℚ)/2)] : List (String × ℚ)), 0 ≤ p.2) ∧
    (((([("sad", (1:ℚ)/2)] : List (String × ℚ))).map (fun p => p.2)).sum ≤ 1) ∧
    ((calculate_risk_score [("sad", (1:ℚ)/2)]).2 ≤ 70 ∧
     (calculate_risk_score [("sad", (1:ℚ)/2)]).1 ≠ "CRITICAL") := by
  have hpos : ∀ p ∈ ([("sad", (1:ℚ)/2)] : List (String × ℚ)), 0 ≤ p.2 := by
    intro p hp
    simp only [List.mem_singleton] at hp
    subst hp
    norm_num
  have hsum : ((([("sad", (1:ℚ)/2)] : List (String × ℚ))).map (fun p => p.2)).sum ≤ 1 := by
    simp
    norm_num
  exact ⟨hpos, hsum, C9_normalized_scores_below_critical _ hpos hsum⟩

end BackendAudio

namespace Processor

/-- Result of `local_fusion` in `processor.py`: the `sentiment`, `score`
and `confidence` fields of the returned dict (the `breakdown` field is the
same three components with their weights). -/
structure FusionResult where
  sentiment : String
  score : ℚ
  confidence : ℚ
deriving DecidableEq

/-- The label-only vocal mapping of `local_fusion` (used when the numeric
vocal score is absent, non-numeric or zero).  Python's `vocal_label and
kw in vocal_label.lower()` guard is redundant, since no nonempty keyword
occurs in the empty string. -/
def vocal_label_score (label : String) : ℚ :=
  if strHas (lowerStr label) "happy" then 6/10
  else if strHas (lowerStr label) "sad" || strHas (lowerStr label) "angry" then -(5/10)
  else 0

/-- The vocal component of `local_fusion`: a nonzero numeric score is kept
(divided by 10 when above 1) and forced negative when the label contains
sad/angry/fear; otherwise the label-only mapping applies.  `none` models a
non-numeric `vocal['score']`. -/
def vocal_component (label : String) (score : Option ℚ) : ℚ :=
  match score with
  | some v =>
    if v ≠ 0 then
      let vs := if v ≤ 1 then v else v / 10
      if (["sad", "angry", "fear"] : List String).any
          (fun x => strHas (lowerStr label) x) then -|vs|
      else vs
    else vocal_label_score label
  | none => vocal_label_score label

/-- The facial component of `local_fusion` over
`facial.get('sentiment', 'neutral')`. -/
def facial_component (facialSentiment : Option String) : ℚ :=
  let f := facialSentiment.getD "neutral"
  if f = "positive" then 1 else if f = "negative" then -1 else 0

/-- The text component: `text.get('score', 0)` coerced by `float` (`none`
when the coercion raises, giving `0.0`) and clamped to `[-1, 1]`. -/
def text_component (t : Option ℚ) : ℚ := max (-1) (min 1 (t.getD 0))

/-- The weighted average of `local_fusion` with weights
facial 0.3, vocal 0.3, text 0.4. -/
def final_score (fs vl : Option String) (vs ts : Option ℚ) : ℚ :=
  facial_component fs * (3/10) + vocal_component (vl.getD "") vs * (3/10) +
    text_component ts * (4/10)

/-- `local_fusion` from `processor.py`: thresholds ±0.2 on the unrounded
weighted average pick the sentiment; `score` and `confidence` are rounded
to three decimals by `safe_round`. -/
def local_fusion (fs vl : Option String) (vs ts : Option ℚ) : FusionResult :=
  let s := final_score fs vl vs ts
  if s > 1/5 then
    ⟨"positive", roundTo s 3, roundTo (min (19/20) (3/5 + |s| * (1/2))) 3⟩
  else if s < -(1/5) then
    ⟨"negative", roundTo s 3, roundTo (min (19/20) (3/5 + |s| * (1/2))) 3⟩
  else
    ⟨"neutral", roundTo s 3, roundTo (max (1/2) (7/10 - |s|)) 3⟩

/-- Claim C3's facial term `f`: +1 for 'positive', -1 for 'negative', 0
otherwise. -/
def specFacialC3 (facialSentiment : Option String) : ℚ :=
  let f := facialSentiment.getD "neutral"
  if f = "positive" then 1 else if f = "negative" then -1 else 0

/-- Claim C3's vocal term `v`: a nonzero numeric score kept, divided by 10
if above 1, negated (made negative) when the label contains sad/angry/fear;
otherwise 0.6 for a label containing 'happy', -0.5 for sad or angry, else
0.0. -/
def specVocalC3 (label : Option String) (score : Option ℚ) : ℚ :=
  vocal_component (label.getD "") score

/-- Claim C3's text term `t`: the score coerced to a float (0.0 on
failure) and clamped to `[-1, 1]`. -/
def specTextC3 (t : Option ℚ) : ℚ := max (-1) (min 1 (t.getD 0))

/-- Claim C3's weighted average `0.3 * f + 0.3 * v + 0.4 * t`. -/
def specWavgC3 (fs vl : Option String) (vs ts : Option ℚ) : ℚ :=
  (3/10) * specFacialC3 fs + (3/10) * specVocalC3 vl vs + (4/10) * specTextC3 ts

/-- Claim C3's returned score: the weighted average rounded to three
decimals. -/
def specScoreC3 (fs vl : Option String) (vs ts : Option ℚ) : ℚ :=
  roundTo (specWavgC3 fs vl vs ts) 3

/-- Claim C3 as stated: the sentiment thresholds are applied to the
returned (three-decimal rounded) score. -/
def C3Claim (fs vl : Option String) (vs ts : Option ℚ) : Prop :=
  (local_fusion fs vl vs ts).score = specScoreC3 fs vl vs ts ∧
  ((local_fusion fs vl vs ts).sentiment = "positive" ↔
    specScoreC3 fs vl vs ts > 1/5) ∧
  ((local_fusion fs vl vs ts).sentiment = "negative" ↔
    specScoreC3 fs vl vs ts < -(1/5)) ∧
  ((local_fusion fs vl vs ts).sentiment = "neutral" ↔
    -(1/5) ≤ specScoreC3 fs vl vs ts ∧ specScoreC3 fs vl vs ts ≤ 1/5)

theorem local_fusion_closed_form (fs vl : Option String) (vs ts : Option ℚ) :
    (local_fusion fs vl vs ts).sentiment =
      (if final_score fs vl vs ts > 1/5 then "positive"
       else if final_score fs vl vs ts < -(1/5) then "negative" else "neutral") ∧
    (local_fusion fs vl vs ts).score = roundTo (final_score fs vl vs ts) 3 := by
  simp only [local_fusion]
  split_ifs <;> exact ⟨rfl, rfl⟩

theorem sentiment_cases (s : ℚ) :
    ((if s > 1/5 then "positive"
      else if s < -(1/5) then "negative" else "neutral") = "positive" ↔ s > 1/5) ∧
    ((if s > 1/5 then "positive"
      else if s < -(1/5) then "negative" else "neutral") = "negative" ↔ s < -(1/5)) ∧
    ((if s > 1/5 then "positive"
      else if s < -(1/5) then "negative" else "neutral") = "neutral" ↔
      -(1/5) ≤ s ∧ s ≤ 1/5) := by
  split_ifs with h1 h2
  · exact ⟨⟨fun _ => h1, fun _ => rfl⟩,
           ⟨fun h => absurd h (by decide), fun h => by exfalso; linarith⟩,
           ⟨fun h => absurd h (by decide), fun h => by exfalso; linarith [h.2]⟩⟩
  · exact ⟨⟨fun h => absurd h (by decide), fun h => by exfalso; linarith⟩,
           ⟨fun _ => h2, fun _ => rfl⟩,
           ⟨fun h => absurd h (by decide), fun h => by exfalso; linarith [h.1]⟩⟩
  · push_neg at h1 h2
    exact ⟨⟨fun h => absurd h (by decide), fun h => by exfalso; linarith⟩,
           ⟨fun h => absurd h (by decide), fun h => by exfalso; linarith⟩,
           ⟨fun _ => ⟨h2, h1⟩, fun _ => rfl⟩⟩

theorem specWavgC3_eq_final_score (fs vl : Option String) (vs ts : Option ℚ) :
    specWavgC3 fs vl vs ts = final_score fs vl vs ts := by
  unfold specWavgC3 final_score specFacialC3 specVocalC3 specTextC3 facial_component
    text_component
  ring

theorem final_score_at_ce :
    final_score none none (some 0) (some (501/1000)) = 501/2500 := by
  have h1 : strHas (lowerStr "") "happy" = false := by decide
  have h2 : strHas (lowerStr "") "sad" = false := by decide
  have h3 : strHas (lowerStr "") "angry" = false := by decide
  have hne1 : ("neutral" : String) ≠ "positive" := by decide
  have hne2 : ("neutral" : String) ≠ "negative" := by decide
  unfold final_score facial_component vocal_component vocal_label_score text_component
  simp only [Option.getD, if_neg hne1, if_neg hne2, h1, h2, h3]
  norm_num

/-- **C3 counterexample.** With neutral facial input, no vocal signal and
text score `0.501`, the weighted average is `0.2004`, so the code returns
sentiment `"positive"` with rounded score `0.2`; the claim derives the
sentiment from the returned rounded score `0.2`, which would demand
`"neutral"`. -/
theorem C3_counterexample : ¬ C3Claim none none (some 0) (some (501/1000)) := by
  intro h
  have hsent : (local_fusion none none (some 0) (some (501/1000))).sentiment
      = "positive" := by
    rw [(local_fusion_closed_form none none (some 0) (some (501/1000))).1,
        final_score_at_ce, if_pos (by norm_num : (501/2500 : ℚ) > 1/5)]
  have hwav : specWavgC3 none none (some 0) (some (501/1000)) = 501/2500 := by
    rw [specWavgC3_eq_final_score, final_score_at_ce]
  have hspec : specScoreC3 none none (some 0) (some (501/1000)) = 1/5 := by
    rw [specScoreC3, hwav]
    unfold roundTo
    norm_num [round_eq]
  have := (h.2.1).mp hsent
  rw [hspec] at this
  linarith

/-- **C3 (amended).** `local_fusion` returns the claim's weighted average
rounded to three decimals as `score`; the sentiment, however, is chosen by
the ±0.2 thresholds on the weighted average *before* rounding: positive
iff it exceeds 0.2, negative iff it is below -0.2, neutral otherwise. -/
theorem C3_local_fusion_amended (fs vl : Option String) (vs ts : Option ℚ) :
    (local_fusion fs vl vs ts).score = roundTo (specWavgC3 fs vl vs ts) 3 ∧
    ((local_fusion fs vl vs ts).sentiment = "positive" ↔
      specWavgC3 fs vl vs ts > 1/5) ∧
    ((local_fusion fs vl vs ts).sentiment = "negative" ↔
      specWavgC3 fs vl vs ts < -(1/5)) ∧
    ((local_fusion fs vl vs ts).sentiment = "neutral" ↔
      -(1/5) ≤ specWavgC3 fs vl vs ts ∧ specWavgC3 fs vl vs ts ≤ 1/5) := by
  rw [specWavgC3_eq_final_score]
  obtain ⟨hsent, hscore⟩ := local_fusion_closed_form fs vl vs ts
  rw [hsent, hscore]
  exact ⟨rfl, sentiment_cases (final_score fs vl vs ts)⟩

end Processor

namespace TextAnalyzer

/-- The `"CRITICAL"` keyword list of `RISK_PATTERNS` in
`text-based-analyzer/main.py`. -/
def CRITICAL_KEYWORDS : List String :=
  ["suicide", "kill myself", "end my life", "want to die", "ending it all",
   "no reason to live", "better off dead", "suicidal", "final goodbye",
   "give up", "done with life", "escape pain", "death wish",
   "commit suicide", "take my life", "end everything", "no hope",
   "family burden", "cannot face", "final solution", "no way out"]

/-- The `"HIGH"` keyword list of `RISK_PATTERNS`. -/
def HIGH_KEYWORDS : List String :=
  ["hopeless", "worthless", "burden", "empty", "numb",
   "self harm", "cutting", "overdose", "harm myself",
   "no future", "nothing matters", "lost all hope",
   "failure", "disappointment", "shame", "guilt",
   "useless", "good for nothing", "waste", "loser"]

/-- The `"MEDIUM"` keyword list of `RISK_PATTERNS`. -/
def MEDIUM_KEYWORDS : List String :=
  ["depressed", "anxious", "overwhelmed", "stressed", "lonely",
   "can\x27t sleep", "panic", "fear", "scared", "worried",
   "exhausted", "burned out", "isolated", "helpless",
   "tension", "pressure", "worried sick", "overthinking"]

/-- The `"LOW"` keyword list of `RISK_PATTERNS`. -/
def LOW_KEYWORDS : List String :=
  ["sad", "worried", "tense", "unhappy", "frustrated",
   "annoyed", "disappointed", "tired", "exhausted",
   "down", "moody", "irritable", "upset"]

/-- `RISK_PATTERNS` in dict insertion order. -/
def RISK_PATTERNS : List (String × List String) :=
  [("CRITICAL", CRITICAL_KEYWORDS), ("HIGH", HIGH_KEYWORDS),
   ("MEDIUM", MEDIUM_KEYWORDS), ("LOW", LOW_KEYWORDS)]

/-- The `risk_order` severity dict of `detect_risk_keywords` (only the
four listed levels ever occur). -/
def risk_order (level : String) : ℕ :=
  if level = "CRITICAL" then 4
  else if level = "HIGH" then 3
  else if level = "MEDIUM" then 2
  else if level = "LOW" then 1
  else 0

/-- One keyword step of the scanning loop of `detect_risk_keywords`: on a
substring match, append the annotated entry and raise the running maximum
level. -/
def detect_step (textLower level : String) (st : List String × String)
    (keyword : String) : List String × String :=
  if strHas textLower keyword then
    (st.1 ++ [keyword ++ " (" ++ level ++ ")"],
     if risk_order level > risk_order st.2 then level else st.2)
  else st

/-- `detect_risk_keywords`: scans `RISK_PATTERNS` in order over the
lowercased text, collecting `"keyword (LEVEL)"` entries and the maximal
matched level, starting from `"LOW"`; returns
`(found_keywords, max_risk_level)`. -/
def detect_risk_keywords (text : String) : List String × String :=
  let textLower := lowerStr text
  RISK_PATTERNS.foldl (fun st p => p.2.foldl (detect_step textLower p.1) st)
    ([], "LOW")

/-- The annotated entries contributed by one category. -/
def tagged (textLower level : String) (kws : List String) : List String :=
  (kws.filter (fun k => strHas textLower k)).map (fun k => k ++ " (" ++ level ++ ")")

/-- The running-maximum update of the loop. -/
def updMax (level m : String) : String :=
  if risk_order level > risk_order m then level else m

theorem updMax_idem (level m : String) : updMax level (updMax level m) = updMax level m := by
  unfold updMax
  by_cases h : risk_order level > risk_order m
  · rw [if_pos h, if_neg (lt_irrefl _)]
  · rw [if_neg h, if_neg h]

theorem inner_foldl (textLower level : String) (kws : List String)
    (found : List String) (m : String) :
    kws.foldl (detect_step textLower level) (found, m) =
      (found ++ tagged textLower level kws,
       if kws.any (fun k => strHas textLower k) then updMax level m else m) := by
  induction kws generalizing found m with
  | nil => simp [tagged]
  | cons k t ih =>
    cases hk : strHas textLower k with
    | true =>
      simp only [List.foldl_cons, detect_step, hk, if_true]
      rw [ih,
        show (if risk_order level > risk_order m then level else m) = updMax level m
          from rfl,
        updMax_idem, ite_self]
      have ht : tagged textLower level (k :: t) =
          (k ++ " (" ++ level ++ ")") :: tagged textLower level t := by
        simp [tagged, hk]
      have ha : ((k :: t).any fun x => strHas textLower x) = true := by simp [hk]
      rw [ht, ha, if_pos rfl]
      simp
    | false =>
      simp only [List.foldl_cons, detect_step, hk]
      rw [if_neg (by simp), ih]
      simp [tagged, hk]

theorem detect_risk_keywords_eval (text : String) :
    detect_risk_keywords text =
      (tagged (lowerStr text) "CRITICAL" CRITICAL_KEYWORDS ++
       tagged (lowerStr text) "HIGH" HIGH_KEYWORDS ++
       tagged (lowerStr text) "MEDIUM" MEDIUM_KEYWORDS ++
       tagged (lowerStr text) "LOW" LOW_KEYWORDS,
       if CRITICAL_KEYWORDS.any (fun k => strHas (lowerStr text) k) then "CRITICAL"
       else if HIGH_KEYWORDS.any (fun k => strHas (lowerStr text) k) then "HIGH"
       else if MEDIUM_KEYWORDS.any (fun k => strHas (lowerStr text) k) then "MEDIUM"
       else "LOW") := by
  show RISK_PATTERNS.foldl (fun st p => p.2.foldl (detect_step (lowerStr text) p.1) st)
    ([], "LOW") = _
  rw [show RISK_PATTERNS = [("CRITICAL", CRITICAL_KEYWORDS), ("HIGH", HIGH_KEYWORDS),
    ("MEDIUM", MEDIUM_KEYWORDS), ("LOW", LOW_KEYWORDS)] from rfl]
  simp only [List.foldl_cons, List.foldl_nil]
  rw [inner_foldl, inner_foldl, inner_foldl, inner_foldl]
  by_cases hc : CRITICAL_KEYWORDS.any (fun k => strHas (lowerStr text) k) = true <;>
    by_cases hh : HIGH_KEYWORDS.any (fun k => strHas (lowerStr text) k) = true <;>
    by_cases hm : MEDIUM_KEYWORDS.any (fun k => strHas (lowerStr text) k) = true <;>
    by_cases hl : LOW_KEYWORDS.any (fun k => strHas (lowerStr text) k) = true <;>
    simp [hc, hh, hm, hl, updMax, risk_order]

/-- **C7.** `detect_risk_keywords` returns one annotated `"keyword
(LEVEL)"` entry per matched (category, keyword) pair, and the maximum
matched level under `CRITICAL > HIGH > MEDIUM > LOW`, with `"LOW"` when no
keyword occurs in the lowercased text. -/
theorem C7_detect_risk_keywords (text : String) :
    ((detect_risk_keywords text).1 =
      (RISK_PATTERNS.map (fun p =>
        (p.2.filter (fun k => strHas (lowerStr text) k)).map
          (fun k => k ++ " (" ++ p.1 ++ ")"))).flatten) ∧
    (∀ p ∈ RISK_PATTERNS, (p.2.any (fun k => strHas (lowerStr text) k)) = true →
      risk_order p.1 ≤ risk_order (detect_risk_keywords text).2) ∧
    ((detect_risk_keywords text).2 = "LOW" ∨
      ∃ p ∈ RISK_PATTERNS, p.1 = (detect_risk_keywords text).2 ∧
        (p.2.any (fun k => strHas (lowerStr text) k)) = true) := by
  have he := detect_risk_keywords_eval text
  have h1 : (detect_risk_keywords text).1 =
      tagged (lowerStr text) "CRITICAL" CRITICAL_KEYWORDS ++
      tagged (lowerStr text) "HIGH" HIGH_KEYWORDS ++
      tagged (lowerStr text) "MEDIUM" MEDIUM_KEYWORDS ++
      tagged (lowerStr text) "LOW" LOW_KEYWORDS := by rw [he]
  have h2 : (detect_risk_keywords text).2 =
      (if CRITICAL_KEYWORDS.any (fun k => strHas (lowerStr text) k) then "CRITICAL"
       else if HIGH_KEYWORDS.any (fun k => strHas (lowerStr text) k) then "HIGH"
       else if MEDIUM_KEYWORDS.any (fun k => strHas (lowerStr text) k) then "MEDIUM"
       else "LOW") := by rw [he]
  refine ⟨?_, ?_, ?_⟩
  · rw [h1]
    simp [RISK_PATTERNS, tagged, List.flatten, List.append_assoc]
  · intro p hp hmatch
    rw [h2]
    simp only [RISK_PATTERNS, List.mem_cons, List.not_mem_nil, or_false] at hp
    rcases hp with rfl | rfl | rfl | rfl
    · rw [if_pos hmatch]
    · by_cases hc : CRITICAL_KEYWORDS.any (fun k => strHas (lowerStr text) k) = true
      · rw [if_pos hc]; decide
      · rw [if_neg hc, if_pos hmatch]
    · by_cases hc : CRITICAL_KEYWORDS.any (fun k => strHas (lowerStr text) k) = true
      · rw [if_pos hc]; decide
      · rw [if_neg hc]
        by_cases hh : HIGH_KEYWORDS.any (fun k => strHas (lowerStr text) k) = true
        · rw [if_pos hh]; decide
        · rw [if_neg hh, if_pos hmatch]
    · by_cases hc : CRITICAL_KEYWORDS.any (fun k => strHas (lowerStr text) k) = true
      · rw [if_pos hc]; decide
      · rw [if_neg hc]
        by_cases hh : HIGH_KEYWORDS.any (fun k => strHas (lowerStr text) k) = true
        · rw [if_pos hh]; decide
        · rw [if_neg hh]
          by_cases hm : MEDIUM_KEYWORDS.any (fun k => strHas (lowerStr text) k) = true
          · rw [if_pos hm]; decide
          · rw [if_neg hm]
  · by_cases hc : CRITICAL_KEYWORDS.any (fun k => strHas (lowerStr text) k) = true
    · refine Or.inr ⟨("CRITICAL", CRITICAL_KEYWORDS), by simp [RISK_PATTERNS], ?_, hc⟩
      rw [h2, if_pos hc]
    · by_cases hh : HIGH_KEYWORDS.any (fun k => strHas (lowerStr text) k) = true
      · refine Or.inr ⟨("HIGH", HIGH_KEYWORDS), by simp [RISK_PATTERNS], ?_, hh⟩
        rw [h2, if_neg hc, if_pos hh]
      · by_cases hm : MEDIUM_KEYWORDS.any (fun k => strHas (lowerStr text) k) = true
        · refine Or.inr ⟨("MEDIUM", MEDIUM_KEYWORDS), by simp [RISK_PATTERNS], ?_, hm⟩
          rw [h2, if_neg hc, if_neg hh, if_pos hm]
        · exact Or.inl (by rw [h2, if_neg hc, if_neg hh, if_neg hm])

/-- Concrete instance of C7: `"I want to die"` matches the CRITICAL
category, and the returned maximum level is at least as severe. -/
theorem C7_witness :
    (("CRITICAL", CRITICAL_KEYWORDS) ∈ RISK_PATTERNS) ∧
    (CRITICAL_KEYWORDS.any (fun k => strHas (lowerStr "I want to die") k) = true) ∧
    risk_order "CRITICAL" ≤ risk_order ((detect_risk_keywords "I want to die").2) :=
  ⟨by decide, by decide,
   (C7_detect_risk_keywords "I want to die").2.1 ("CRITICAL", CRITICAL_KEYWORDS)
     (by decide) (by decide)⟩

end TextAnalyzer

namespace MainFacial

/-- Python's `dict.get(key)` on an association list (dict keys are unique,
so the first match is the entry). -/
def assocGet (emotions : List (String × ℚ)) (key : String) : Option ℚ :=
  (emotions.find? (fun p => p.1 == key)).map (fun p => p.2)

/-- `map_emotion_to_risk` from `main_facial.py`: the score is
`emotions.get(dominant, 0)`, and the lowercased dominant emotion is tested
against the two hard-coded emotion lists with thresholds 60 and 40. -/
def map_emotion_to_risk (dominant : String) (emotions : List (String × ℚ)) : String :=
  if lowerStr dominant ∈ (["fear", "sadness", "angry"] : List String) ∧
      60 ≤ (assocGet emotions dominant).getD 0 then "HIGH"
  else if lowerStr dominant ∈ (["sadness", "fear"] : List String) ∧
      40 ≤ (assocGet emotions dominant).getD 0 then "MEDIUM"
  else "LOW"

/-- **C8.** `map_emotion_to_risk` is `"HIGH"` iff the lowercased dominant
emotion is fear/sadness/angry with its own score at least 60, `"MEDIUM"`
iff that fails but the lowercased dominant is sadness/fear with score at
least 40, and `"LOW"` otherwise (a missing dominant key counts as score
0). -/
theorem C8_map_emotion_to_risk (dominant : String) (emotions : List (String × ℚ)) :
    (map_emotion_to_risk dominant emotions = "HIGH" ↔
      (lowerStr dominant ∈ (["fear", "sadness", "angry"] : List String) ∧
       60 ≤ (assocGet emotions dominant).getD 0)) ∧
    (map_emotion_to_risk dominant emotions = "MEDIUM" ↔
      (¬(lowerStr dominant ∈ (["fear", "sadness", "angry"] : List String) ∧
         60 ≤ (assocGet emotions dominant).getD 0) ∧
       lowerStr dominant ∈ (["sadness", "fear"] : List String) ∧
       40 ≤ (assocGet emotions dominant).getD 0)) ∧
    (map_emotion_to_risk dominant emotions = "LOW" ↔
      (¬(lowerStr dominant ∈ (["fear", "sadness", "angry"] : List String) ∧
         60 ≤ (assocGet emotions dominant).getD 0) ∧
       ¬(lowerStr dominant ∈ (["sadness", "fear"] : List String) ∧
         40 ≤ (assocGet emotions dominant).getD 0))) := by
  unfold map_emotion_to_risk
  by_cases h1 : lowerStr dominant ∈ (["fear", "sadness", "angry"] : List String) ∧
      60 ≤ (assocGet emotions dominant).getD 0
  · rw [if_pos h1]
    exact ⟨⟨fun _ => h1, fun _ => rfl⟩,
           ⟨fun h => absurd h (by decide), fun h => absurd h1 h.1⟩,
           ⟨fun h => absurd h (by decide), fun h => absurd h1 h.1⟩⟩
  · rw [if_neg h1]
    by_cases h2 : lowerStr dominant ∈ (["sadness", "fear"] : List String) ∧
        40 ≤ (assocGet emotions dominant).getD 0
    · rw [if_pos h2]
      exact ⟨⟨fun h => absurd h (by decide), fun h => absurd h h1⟩,
             ⟨fun _ => ⟨h1, h2.1, h2.2⟩, fun _ => rfl⟩,
             ⟨fun h => absurd h (by decide), fun h => absurd h2 h.2⟩⟩
    · rw [if_neg h2]
      exact ⟨⟨fun h => absurd h (by decide), fun h => absurd h h1⟩,
             ⟨fun h => absurd h (by decide), fun h => absurd ⟨h.2.1, h.2.2⟩ h2⟩,
             ⟨fun _ => ⟨h1, h2⟩, fun _ => rfl⟩⟩

end MainFacial
